import Mathlib

/-!
Verification of the RB2B-to-lemlist webhook bridge (`src/app.py`).

The development shallowly embeds the two components of the program:

* `get_or_create_campaign` — the campaign resolver with its process-wide
  cached identifier (`CAMPAIGN_ID`), modelled with explicit state passing;
* `rb2b_webhook_receiver` — the Flask webhook handler, modelled as a pure
  function from the request body, the process state and an oracle for the
  upstream lemlist API to the HTTP response, the new state and the list of
  outbound network calls issued.

Python scalar values are modelled by `JVal` (string / integer / boolean),
with Python `None` represented as `Option.none`; Python truthiness is
`JVal.truthy`.  Exceptions become the `raised` constructor of `PyOutcome`.
-/

namespace Superleads

/-- A (non-null) JSON scalar value as handled by the Python code.  Python
`None` (and JSON `null`) is represented by `Option.none` around `JVal`. -/
inductive JVal where
  | jstr (s : String)
  | jnum (n : Int)
  | jbool (b : Bool)
deriving DecidableEq

/-- Python truthiness of a scalar: empty string, zero and `False` are falsy. -/
def JVal.truthy : JVal → Bool
  | .jstr s => !s.isEmpty
  | .jnum n => n != 0
  | .jbool b => b

/-- Python `str()` of a scalar, as used in f-string interpolation. -/
def JVal.pyStr : JVal → String
  | .jstr s => s
  | .jnum n => toString n
  | .jbool true => "True"
  | .jbool false => "False"

/-- A JSON object / Python dict with scalar values, as an association list. -/
abbrev Record := List (String × JVal)

/-- Python `dict.get(k)`: the value stored under `k`, or `None` when absent. -/
def Record.get : Record → String → Option JVal
  | [], _ => none
  | p :: t, k => if p.1 = k then some p.2 else Record.get t k

/-- Truthiness of a possibly-`None` Python value. -/
def optTruthy : Option JVal → Bool
  | none => false
  | some v => v.truthy

/-- Python `a or b` on possibly-`None` values: `a` when truthy, else `b`. -/
def pyOr (a b : Option JVal) : Option JVal :=
  if optTruthy a then a else b

/-- Python `str()` of a possibly-`None` value (`str(None) = "None"`). -/
def pyStrOpt : Option JVal → String
  | none => "None"
  | some v => v.pyStr

/-- Truthiness of `os.getenv` output (`None` or a string). -/
def strTruthy : Option String → Bool
  | none => false
  | some s => !s.isEmpty

/-- The fixed campaign name constant `CAMPAIGN_NAME` of `app.py`. -/
def CAMPAIGN_NAME : String := "website_leads"

/-- Outcome of one `requests` call, as observed through
`raise_for_status()`: a 2xx response with a parsed JSON body, an
`HTTPError` (4xx/5xx status, body text preserved), or a
`RequestException` that is not an `HTTPError` (connection/timeout). -/
inductive UpstreamResult (α : Type) where
  | success (body : α)
  | httpError (status : Nat) (text : String)
  | netError
deriving DecidableEq

/-- The exceptions the embedded code can raise. -/
inductive PyError where
  | valueError (msg : String)
  | httpError (status : Nat) (text : String)
  | netError
deriving DecidableEq

/-- A Python computation either returns a value or raises an exception. -/
inductive PyOutcome (α : Type) where
  | ret (v : α)
  | raised (e : PyError)
deriving DecidableEq

/-- One outbound network call to the lemlist API. -/
inductive NetCall where
  | listCampaigns
  | createCampaign (payload : Record)
  | upsertLead (url : String) (payload : Record)
deriving DecidableEq

/-- Upstream behaviour for the (at most) two calls one resolver
invocation can make: `GET /campaigns` and `POST /campaigns`. -/
structure ResolverEnv where
  listResult : UpstreamResult (List Record)
  createResult : UpstreamResult Record
deriving DecidableEq

/-- Result of one resolver invocation: the returned Python value or the
raised exception, the value of the global `CAMPAIGN_ID` afterwards, and
the outbound calls issued, in order. -/
structure ResolverOut where
  result : PyOutcome (Option JVal)
  newCid : Option JVal
  calls : List NetCall
deriving DecidableEq

/-- Embedding of `get_or_create_campaign` (`app.py` lines 33-98).
`apiKey` is `LEMLIST_API_KEY`, `cid` the global `CAMPAIGN_ID` before
the call, `env` the upstream behaviour during this invocation. -/
def get_or_create_campaign (apiKey : Option String) (cid : Option JVal)
    (env : ResolverEnv) : ResolverOut :=
  if optTruthy cid then
    ⟨.ret cid, cid, []⟩
  else if !strTruthy apiKey then
    ⟨.raised (.valueError "Missing LEMLIST_API_KEY"), cid, []⟩
  else
    match env.listResult with
    | .netError => ⟨.raised .netError, cid, [.listCampaigns]⟩
    | .httpError s t => ⟨.raised (.httpError s t), cid, [.listCampaigns]⟩
    | .success campaigns =>
      match campaigns.find?
          (fun c => Record.get c "name" = some (.jstr CAMPAIGN_NAME)) with
      | some c =>
        ⟨.ret (Record.get c "_id"), Record.get c "_id", [.listCampaigns]⟩
      | none =>
        match env.createResult with
        | .netError =>
          ⟨.raised .netError, cid,
            [.listCampaigns, .createCampaign [("name", .jstr CAMPAIGN_NAME)]]⟩
        | .httpError s t =>
          ⟨.raised (.httpError s t), cid,
            [.listCampaigns, .createCampaign [("name", .jstr CAMPAIGN_NAME)]]⟩
        | .success nc =>
          ⟨.ret (Record.get nc "_id"), Record.get nc "_id",
            [.listCampaigns, .createCampaign [("name", .jstr CAMPAIGN_NAME)]]⟩

/-- A sequence of resolver invocations within one process lifetime:
the cached `CAMPAIGN_ID` is threaded from each call into the next. -/
def runSeq (apiKey : Option String) : Option JVal → List ResolverEnv → List ResolverOut
  | _, [] => []
  | cid, e :: es =>
    let o := get_or_create_campaign apiKey cid e
    o :: runSeq apiKey o.newCid es

/-- Number of create-campaign requests in a list of outbound calls. -/
def createCount : List NetCall → Nat
  | [] => 0
  | .createCampaign _ :: t => createCount t + 1
  | _ :: t => createCount t

/-- The request body as seen by `request.get_json()`: absent/empty body,
syntactically invalid JSON, or a parsed JSON value (only scalar-valued
objects are modelled, matching the webhook source's payloads). -/
inductive Body where
  | noBody
  | badJson
  | jnull
  | scalar (v : JVal)
  | arr (elems : List JVal)
  | obj (r : Record)

/-- The handler's HTTP response: a `jsonify` response with a status code
and a string-valued JSON object, or an exception that escapes the handler
(so the framework, not the handler, produces the response). -/
inductive HResp where
  | json (status : Nat) (body : List (String × String))
  | uncaught (err : String)
deriving DecidableEq

/-- Upstream behaviour for one request: the resolver's two possible calls
and the lead-upsert `POST`. -/
structure HandlerEnv where
  resolver : ResolverEnv
  leadResult : UpstreamResult Record
deriving DecidableEq

/-- Result of one request: the response, the global `CAMPAIGN_ID`
afterwards, and the outbound calls issued, in order. -/
structure HandlerOut where
  resp : HResp
  newCid : Option JVal
  calls : List NetCall
deriving DecidableEq

/-- The field mapping of `app.py` lines 168-182: each outbound field name
paired with the value resolved for it (possibly `None`). -/
def rawPayload (r : Record) : List (String × Option JVal) :=
  [("firstName", pyOr (Record.get r "FirstName") (Record.get r "First Name")),
   ("lastName", pyOr (Record.get r "LastName") (Record.get r "Last Name")),
   ("linkedinUrl", pyOr (Record.get r "LinkedIn URL") (Record.get r "LinkedInUrl")),
   ("jobTitle", pyOr (Record.get r "Title") (Record.get r "jobTitle")),
   ("companyName", pyOr (Record.get r "CompanyName") (Record.get r "Company Name")),
   ("companyWebsite", pyOr (Record.get r "Website") (Record.get r "companyWebsite")),
   ("companyIndustry", pyOr (Record.get r "Industry") (Record.get r "companyIndustry")),
   ("companySize", pyOr (Record.get r "EstimatedEmployeeCount") (Record.get r "Employee Count")),
   ("city", Record.get r "City"),
   ("state", Record.get r "State"),
   ("zipcode", pyOr (Record.get r "Zipcode") (Record.get r "zipcode")),
   ("estimatedRevenue", pyOr (Record.get r "EstimateRevenue") (Record.get r "Estimate Revenue"))]

/-- The outbound payload after the cleanup of `app.py` line 190:
`{k: v for k, v in lemlist_payload.items() if v is not None}`. -/
def lemlist_payload (r : Record) : Record :=
  (rawPayload r).filterMap (fun p => p.2.map (fun v => (p.1, v)))

/-- The email extraction of `app.py` lines 147-155:
`work_email or business_email_field or email_field`. -/
def resolve_email (r : Record) : Option JVal :=
  pyOr (pyOr (Record.get r "WorkEmail") (Record.get r "Business Email"))
    (Record.get r "email")

/-- The f-string URL of `app.py` line 202. -/
def leadUrl (cid email : Option JVal) : String :=
  "https://api.lemlist.com/api/campaigns/" ++ pyStrOpt cid ++ "/leads/" ++ pyStrOpt email

/-- The 400 response of `app.py` line 131 (`if not rb2b_data`). -/
def invalidResp : HResp :=
  .json 400 [("status", "error"), ("message", "Invalid request data")]

/-- The 400 response of `app.py` line 141 (exception while handling the
parsed body inside the first `try` block). -/
def parseErrResp : HResp :=
  .json 400 [("status", "error"), ("message", "Failed to parse JSON")]

/-- Embedding of `rb2b_webhook_receiver` (`app.py` lines 101-260).

The first `try` block (lines 125-141) also contains the logging loop
`for key, value in rb2b_data.items():`, so a body that parses to a truthy
non-object raises there (`AttributeError` / `TypeError`) and is caught,
yielding the parse-error 400.  In the fourth step's `except HTTPError`
branch (lines 238-247), the handler reads the local variable `response`,
which is only assigned by the lead-upsert call (line 219); when the
exception came from `get_or_create_campaign`, that read raises
`UnboundLocalError`, which no surrounding handler catches. -/
def rb2b_webhook_receiver (apiKey : Option String) (cid : Option JVal)
    (body : Body) (env : HandlerEnv) : HandlerOut :=
  match body with
  | .noBody => ⟨parseErrResp, cid, []⟩
  | .badJson => ⟨parseErrResp, cid, []⟩
  | .jnull => ⟨invalidResp, cid, []⟩
  | .scalar v =>
    if v.truthy then ⟨parseErrResp, cid, []⟩ else ⟨invalidResp, cid, []⟩
  | .arr elems =>
    if elems.isEmpty then ⟨invalidResp, cid, []⟩ else ⟨parseErrResp, cid, []⟩
  | .obj r =>
    if r.isEmpty then ⟨invalidResp, cid, []⟩
    else
      let business_email := resolve_email r
      if !optTruthy business_email then
        ⟨.json 200 [("status", "skipped"), ("message", "Missing required field: email")],
          cid, []⟩
      else
        let ro := get_or_create_campaign apiKey cid env.resolver
        match ro.result with
        | .raised (.httpError _ _) =>
          ⟨.uncaught "UnboundLocalError", ro.newCid, ro.calls⟩
        | .raised .netError =>
          ⟨.json 503 [("status", "error"), ("message", "Network error connecting to lemlist")],
            ro.newCid, ro.calls⟩
        | .raised (.valueError _) =>
          ⟨.json 500 [("status", "error"), ("message", "An internal server error occurred")],
            ro.newCid, ro.calls⟩
        | .ret cv =>
          let call := NetCall.upsertLead (leadUrl cv business_email) (lemlist_payload r)
          match env.leadResult with
          | .success _ =>
            ⟨.json 201 [("status", "success"), ("message", "Contact created in lemlist")],
              ro.newCid, ro.calls ++ [call]⟩
          | .httpError _ t =>
            ⟨.json 502 [("status", "error"), ("message", "Failed to create contact in lemlist"),
                ("details", t)],
              ro.newCid, ro.calls ++ [call]⟩
          | .netError =>
            ⟨.json 503 [("status", "error"), ("message", "Network error connecting to lemlist")],
              ro.newCid, ro.calls ++ [call]⟩

/-- The alternate-spelling table implicit in `rawPayload`: outbound field
name, first-listed source key, second-listed source key.  (`city` and
`state` have a single source key and therefore do not appear.) -/
def altFields : List (String × String × String) :=
  [("firstName", "FirstName", "First Name"),
   ("lastName", "LastName", "Last Name"),
   ("linkedinUrl", "LinkedIn URL", "LinkedInUrl"),
   ("jobTitle", "Title", "jobTitle"),
   ("companyName", "CompanyName", "Company Name"),
   ("companyWebsite", "Website", "companyWebsite"),
   ("companyIndustry", "Industry", "companyIndustry"),
   ("companySize", "EstimatedEmployeeCount", "Employee Count"),
   ("zipcode", "Zipcode", "zipcode"),
   ("estimatedRevenue", "EstimateRevenue", "Estimate Revenue")]

/-- Lookup in a field/optional-value list that skips `None` entries: the
value of the first entry with key `k` that holds one. -/
def pyLookup : List (String × Option JVal) → String → Option JVal
  | [], _ => none
  | p :: t, k =>
    if p.1 = k then
      match p.2 with
      | some v => some v
      | none => pyLookup t k
    else pyLookup t k

theorem get_filterMap (l : List (String × Option JVal)) (k : String) :
    Record.get (l.filterMap (fun p => p.2.map (fun v => (p.1, v)))) k
      = pyLookup l k := by
  induction l with
  | nil => rfl
  | cons p t ih =>
    rcases p with ⟨a, o⟩
    cases o with
    | none =>
      by_cases h : a = k <;> simp [pyLookup, h, ih, List.filterMap_cons]
    | some v =>
      by_cases h : a = k <;>
        simp [pyLookup, h, ih, List.filterMap_cons, Record.get]

/-- Looking a field up in the cleaned payload is looking it up in the raw
field mapping and skipping `None`. -/
theorem get_lemlist_payload (r : Record) (k : String) :
    Record.get (lemlist_payload r) k = pyLookup (rawPayload r) k :=
  get_filterMap (rawPayload r) k

theorem pyOr_truthy (a b : Option JVal) (h : optTruthy a = true) :
    pyOr a b = a := by
  simp [pyOr, h]

/-- A truthy cached identifier makes the resolver a pure read. -/
theorem resolver_cached (apiKey : Option String) (cid : Option JVal)
    (env : ResolverEnv) (h : optTruthy cid = true) :
    get_or_create_campaign apiKey cid env = ⟨.ret cid, cid, []⟩ := by
  simp [get_or_create_campaign, h]

/-- With a truthy cached identifier, every invocation in a sequence is a
pure read. -/
theorem runSeq_cached (apiKey : Option String) (cid : Option JVal)
    (envs : List ResolverEnv) (h : optTruthy cid = true) :
    ∀ o ∈ runSeq apiKey cid envs, o = ⟨.ret cid, cid, []⟩ := by
  induction envs with
  | nil => intro o ho; simp [runSeq] at ho
  | cons e es ih =>
    intro o ho
    rw [runSeq, resolver_cached apiKey cid e h] at ho
    rcases List.mem_cons.mp ho with h1 | h1
    · exact h1
    · exact ih o h1

/-- The outbound calls of one resolver invocation are one of three
concrete lists. -/
theorem resolver_calls_cases (apiKey : Option String) (cid : Option JVal)
    (env : ResolverEnv) :
    (get_or_create_campaign apiKey cid env).calls = []
    ∨ (get_or_create_campaign apiKey cid env).calls = [.listCampaigns]
    ∨ (get_or_create_campaign apiKey cid env).calls
        = [.listCampaigns, .createCampaign [("name", .jstr CAMPAIGN_NAME)]] := by
  rcases env with ⟨lr, cr⟩
  rw [get_or_create_campaign]
  split
  · left; rfl
  · split
    · left; rfl
    · cases lr with
      | netError => right; left; rfl
      | httpError s t => right; left; rfl
      | success campaigns =>
        simp only
        split
        · right; left; rfl
        · cases cr <;> (right; right; rfl)

/-- One resolver invocation issues at most one create-campaign request. -/
theorem resolver_createCount_le_one (apiKey : Option String)
    (cid : Option JVal) (env : ResolverEnv) :
    createCount (get_or_create_campaign apiKey cid env).calls ≤ 1 := by
  rcases resolver_calls_cases apiKey cid env with h | h | h <;>
    rw [h] <;> simp [createCount]

/-- With a truthy cached identifier, a sequence of invocations issues no
outbound calls at all. -/
theorem runSeq_calls_nil (apiKey : Option String) (cid : Option JVal)
    (envs : List ResolverEnv) (h : optTruthy cid = true) :
    ((runSeq apiKey cid envs).map ResolverOut.calls).flatten = [] := by
  induction envs with
  | nil => rfl
  | cons e es ih =>
    rw [runSeq, resolver_cached apiKey cid e h]
    simpa using ih

/-- The environment of the first resolver call in the C1 witness: the
fixed-name campaign already exists upstream with identifier `c7`. -/
def c1EnvFound : ResolverEnv :=
  ⟨.success [[("name", .jstr "website_leads"), ("_id", .jstr "c7")]], .netError⟩

/-- C1 (as stated, the claim fails: a first call that succeeds but caches
a falsy identifier lets a later call create again; see
`c1_counterexample`).  Amended: for every sequence of resolver calls whose
first call caches a truthy identifier, every later call returns that
cached identifier with no network call, and at most one create-campaign
request is issued across the whole sequence. -/
theorem c1_resolver_single_create (apiKey : Option String) (e : ResolverEnv)
    (es : List ResolverEnv)
    (h : optTruthy (get_or_create_campaign apiKey none e).newCid = true) :
    (∀ o ∈ runSeq apiKey (get_or_create_campaign apiKey none e).newCid es,
        o.result = .ret (get_or_create_campaign apiKey none e).newCid ∧ o.calls = [])
    ∧ createCount ((get_or_create_campaign apiKey none e).calls
        ++ ((runSeq apiKey (get_or_create_campaign apiKey none e).newCid es).map
              ResolverOut.calls).flatten) ≤ 1 := by
  constructor
  · intro o ho
    rw [runSeq_cached apiKey _ es h o ho]
    exact ⟨rfl, rfl⟩
  · rw [runSeq_calls_nil apiKey _ es h, List.append_nil]
    exact resolver_createCount_le_one apiKey none e

/-- C1 counterexample: the upstream create call returns 2xx with a body
lacking `_id`.  The first call succeeds (returns `None`, no exception),
yet across the two-call sequence two create-campaign requests go out,
because the falsy cached identifier fails the `if CAMPAIGN_ID:` check. -/
theorem c1_counterexample :
    ((runSeq (some "k") none
        [⟨.success [], .success []⟩,
         ⟨.success [], .success [("_id", .jstr "x")]⟩]).map ResolverOut.result).head?
      = some (.ret none)
    ∧ createCount (((runSeq (some "k") none
        [⟨.success [], .success []⟩,
         ⟨.success [], .success [("_id", .jstr "x")]⟩]).map ResolverOut.calls).flatten)
      = 2 := by decide

/-- C1 witness: a concrete first call that finds the campaign and caches
the truthy identifier `c7`; the conclusion of the amended theorem holds. -/
theorem c1_witness :
    optTruthy (get_or_create_campaign (some "k") none c1EnvFound).newCid = true
    ∧ createCount ((get_or_create_campaign (some "k") none c1EnvFound).calls
        ++ ((runSeq (some "k") (get_or_create_campaign (some "k") none c1EnvFound).newCid
              [⟨.netError, .netError⟩]).map ResolverOut.calls).flatten) ≤ 1 :=
  ⟨by decide,
    (c1_resolver_single_create (some "k") c1EnvFound [⟨.netError, .netError⟩] (by decide)).2⟩

/-- C2: when campaign resolution raises an `HTTPError`, the handler does
NOT return the documented 502 response: the `except HTTPError` branch
reads the unassigned local `response` and the request dies with an
uncaught `UnboundLocalError`.  The network-error half of the claim does
hold: resolution failing with a connection error yields the 503 body. -/
theorem c2_resolution_failure_mapping :
    (rb2b_webhook_receiver (some "k") none (.obj [("email", .jstr "a@b.com")])
        ⟨⟨.httpError 401 "Unauthorized", .netError⟩, .netError⟩).resp
      = .uncaught "UnboundLocalError"
    ∧ (rb2b_webhook_receiver (some "k") none (.obj [("email", .jstr "a@b.com")])
        ⟨⟨.netError, .netError⟩, .netError⟩).resp
      = .json 503 [("status", "error"), ("message", "Network error connecting to lemlist")] := by
  decide

/-- C3 (as stated, the claim fails on the empty object; see
`c3_counterexample`).  Amended: for every NON-EMPTY inbound JSON object
in which none of the three recognized email fields holds a truthy
(non-empty) value, the handler returns 200 with the skip body and issues
no outbound call of any kind. -/
theorem c3_skip_no_email (apiKey : Option String) (cid : Option JVal)
    (r : Record) (env : HandlerEnv)
    (hne : r ≠ [])
    (h1 : optTruthy (Record.get r "WorkEmail") = false)
    (h2 : optTruthy (Record.get r "Business Email") = false)
    (h3 : optTruthy (Record.get r "email") = false) :
    rb2b_webhook_receiver apiKey cid (.obj r) env
      = ⟨.json 200 [("status", "skipped"), ("message", "Missing required field: email")],
          cid, []⟩ := by
  have hmail : optTruthy (resolve_email r) = false := by
    simp [resolve_email, pyOr, h1, h2, h3]
  rcases r with _ | ⟨p, t⟩
  · exact absurd rfl hne
  · rw [rb2b_webhook_receiver]
    simp [hmail]

/-- C3 counterexample: the empty JSON object has none of the three email
fields present, yet the handler returns 400 "Invalid request data" (the
`if not rb2b_data` check fires first), not the 200 skip response. -/
theorem c3_counterexample :
    rb2b_webhook_receiver (some "k") none (.obj []) ⟨⟨.netError, .netError⟩, .netError⟩
      = ⟨.json 400 [("status", "error"), ("message", "Invalid request data")], none, []⟩
    ∧ (rb2b_webhook_receiver (some "k") none (.obj []) ⟨⟨.netError, .netError⟩, .netError⟩).resp
      ≠ .json 200 [("status", "skipped"), ("message", "Missing required field: email")] := by
  decide

/-- C3 witness: a concrete non-empty object with no email field is
skipped with no outbound call. -/
theorem c3_witness :
    ([("FirstName", JVal.jstr "Ada")] : Record) ≠ []
    ∧ optTruthy (Record.get [("FirstName", JVal.jstr "Ada")] "WorkEmail") = false
    ∧ optTruthy (Record.get [("FirstName", JVal.jstr "Ada")] "Business Email") = false
    ∧ optTruthy (Record.get [("FirstName", JVal.jstr "Ada")] "email") = false
    ∧ rb2b_webhook_receiver none none (.obj [("FirstName", JVal.jstr "Ada")])
        ⟨⟨.netError, .netError⟩, .netError⟩
      = ⟨.json 200 [("status", "skipped"), ("message", "Missing required field: email")],
          none, []⟩ :=
  ⟨by decide, by decide, by decide, by decide,
    c3_skip_no_email none none _ _ (by decide) (by decide) (by decide) (by decide)⟩

/-- C4 (as stated, the claim fails when the first-listed key holds a
falsy value; see `c4_counterexample`).  Amended: for every mapped field
with two alternate spellings, when the value under the first-listed key
is truthy (non-empty), the outbound payload carries exactly that value;
a falsy first value falls through to the second key. -/
theorem c4_first_truthy_wins (r : Record) (f k1 k2 : String)
    (hmem : (f, k1, k2) ∈ altFields)
    (hT : optTruthy (Record.get r k1) = true) :
    Record.get (lemlist_payload r) f = Record.get r k1 := by
  have hp : pyOr (Record.get r k1) (Record.get r k2) = Record.get r k1 :=
    pyOr_truthy _ _ hT
  rcases hg : Record.get r k1 with _ | v
  · rw [hg] at hT; simp [optTruthy] at hT
  · rw [get_lemlist_payload]
    rw [hg] at hp
    fin_cases hmem <;>
      simp [rawPayload, pyLookup, hp, hg]

/-- C4 counterexample: both `FirstName` and `First Name` are present, but
`FirstName` is the empty string, so the outbound payload carries the
SECOND key's value `Ada`, not the first-listed key's value. -/
theorem c4_counterexample :
    Record.get (lemlist_payload
        [("WorkEmail", .jstr "a@b.com"), ("FirstName", .jstr ""), ("First Name", .jstr "Ada")])
        "firstName"
      = some (.jstr "Ada")
    ∧ (some (JVal.jstr "Ada") : Option JVal) ≠ some (.jstr "") := by
  decide

/-- C4 witness: with a truthy `FirstName`, the first-listed key wins even
though `First Name` is also present. -/
theorem c4_witness :
    ((("firstName", "FirstName", "First Name") : String × String × String) ∈ altFields)
    ∧ optTruthy (Record.get
        [("FirstName", JVal.jstr "Ada"), ("First Name", JVal.jstr "Eve")] "FirstName") = true
    ∧ Record.get (lemlist_payload
        [("FirstName", JVal.jstr "Ada"), ("First Name", JVal.jstr "Eve")]) "firstName"
      = Record.get [("FirstName", JVal.jstr "Ada"), ("First Name", JVal.jstr "Eve")] "FirstName" :=
  ⟨by decide, by decide,
    c4_first_truthy_wins [("FirstName", JVal.jstr "Ada"), ("First Name", JVal.jstr "Eve")]
      "firstName" "FirstName" "First Name" (by decide) (by decide)⟩

/-- C5 (as stated, the claim fails for empty strings; see
`c5_counterexample`).  Amended: the outbound payload contains no field
whose resolved value was `None`/absent — every entry it carries is a
value actually resolved for that field, and a field whose resolved value
is `None` does not appear — but empty-string values pass the
`is not None` filter and are sent. -/
theorem c5_no_absent_fields (r : Record) :
    (∀ p ∈ lemlist_payload r, (p.1, some p.2) ∈ rawPayload r)
    ∧ ∀ k, pyLookup (rawPayload r) k = none → Record.get (lemlist_payload r) k = none := by
  constructor
  · intro p hp
    rcases List.mem_filterMap.mp hp with ⟨q, hq, hmap⟩
    rcases q with ⟨a, o⟩
    cases o with
    | none => simp at hmap
    | some v =>
      simp only [Option.map_some'] at hmap
      injection hmap with h2
      rw [← h2]
      exact hq
  · intro k hk
    rw [get_lemlist_payload, hk]

/-- C5 counterexample: an inbound record with `"City": ""` produces an
outbound payload carrying the empty-string placeholder `"city": ""`,
which the handler sends to the lead-upsert endpoint. -/
theorem c5_counterexample :
    (rb2b_webhook_receiver (some "k") (some (.jstr "c"))
        (.obj [("WorkEmail", .jstr "a@b.com"), ("City", .jstr "")])
        ⟨⟨.netError, .netError⟩, .success []⟩).calls
      = [.upsertLead "https://api.lemlist.com/api/campaigns/c/leads/a@b.com"
          [("city", .jstr "")]]
    ∧ ("city", JVal.jstr "") ∈ lemlist_payload
        [("WorkEmail", .jstr "a@b.com"), ("City", .jstr "")] := by
  decide

/-- C5 witness: a concrete payload entry traced back to its resolved raw
value, and a concrete absent field shown missing from the payload. -/
theorem c5_witness :
    ("city", some (JVal.jstr "Rome")) ∈ rawPayload [("City", JVal.jstr "Rome")]
    ∧ Record.get (lemlist_payload [("City", JVal.jstr "Rome")]) "companyName" = none :=
  ⟨(c5_no_absent_fields [("City", JVal.jstr "Rome")]).1 ("city", JVal.jstr "Rome") (by decide),
    (c5_no_absent_fields [("City", JVal.jstr "Rome")]).2 "companyName" (by decide)⟩

/-- Specification-side definition for the refinement in C6, following the
spec's words: the value of the first key in `ks` (priority order) that is
present in `r` with a truthy (non-empty) value. -/
def firstTruthy (r : Record) : List String → Option JVal
  | [] => none
  | k :: t =>
    match Record.get r k with
    | some v => if v.truthy then some v else firstTruthy r t
    | none => firstTruthy r t

theorem firstTruthy_cons (r : Record) (k : String) (t : List String) :
    firstTruthy r (k :: t)
      = if optTruthy (Record.get r k) then Record.get r k else firstTruthy r t := by
  rw [firstTruthy]
  rcases h : Record.get r k with _ | v
  · simp [optTruthy]
  · by_cases hv : v.truthy <;> simp [optTruthy, hv]

/-- C6: whenever the handler's email resolution produces a usable (truthy)
value, it is the first truthy value among `WorkEmail`, `Business Email`,
`email` in that priority order; and the spec's example resolves to
`c@d.com` and is forwarded to that address. -/
theorem c6_email_priority :
    (∀ r, optTruthy (resolve_email r) = true →
        resolve_email r = firstTruthy r ["WorkEmail", "Business Email", "email"])
    ∧ resolve_email [("Business Email", .jstr ""), ("email", .jstr "c@d.com")]
      = some (.jstr "c@d.com")
    ∧ (rb2b_webhook_receiver (some "k") (some (.jstr "c"))
        (.obj [("Business Email", .jstr ""), ("email", .jstr "c@d.com")])
        ⟨⟨.netError, .netError⟩, .success []⟩).calls
      = [.upsertLead "https://api.lemlist.com/api/campaigns/c/leads/c@d.com" []] := by
  refine ⟨?_, by decide, by decide⟩
  intro r h
  rw [firstTruthy_cons, firstTruthy_cons, firstTruthy_cons, firstTruthy]
  by_cases hA : optTruthy (Record.get r "WorkEmail") = true
  · simp [resolve_email, pyOr, hA]
  · by_cases hB : optTruthy (Record.get r "Business Email") = true
    · simp [resolve_email, pyOr, hA, hB]
    · by_cases hC : optTruthy (Record.get r "email") = true
      · simp [resolve_email, pyOr, hA, hB, hC]
      · exfalso
        simp [resolve_email, pyOr, hA, hB] at h
        exact hC h

/-- C6 witness: a record with a truthy `WorkEmail` instantiates the
priority property. -/
theorem c6_witness :
    optTruthy (resolve_email [("WorkEmail", JVal.jstr "w@x.com")]) = true
    ∧ resolve_email [("WorkEmail", JVal.jstr "w@x.com")]
      = firstTruthy [("WorkEmail", JVal.jstr "w@x.com")]
          ["WorkEmail", "Business Email", "email"] :=
  ⟨by decide, c6_email_priority.1 [("WorkEmail", JVal.jstr "w@x.com")] (by decide)⟩

/-- C7: a missing or unparsable body yields 400 "Failed to parse JSON",
a body parsing to the empty JSON object yields 400 "Invalid request
data", and in both cases no outbound call is issued and the cached
campaign identifier is untouched. -/
theorem c7_bad_request (apiKey : Option String) (cid : Option JVal) (env : HandlerEnv) :
    rb2b_webhook_receiver apiKey cid .noBody env
      = ⟨.json 400 [("status", "error"), ("message", "Failed to parse JSON")], cid, []⟩
    ∧ rb2b_webhook_receiver apiKey cid .badJson env
      = ⟨.json 400 [("status", "error"), ("message", "Failed to parse JSON")], cid, []⟩
    ∧ rb2b_webhook_receiver apiKey cid (.obj []) env
      = ⟨.json 400 [("status", "error"), ("message", "Invalid request data")], cid, []⟩ :=
  ⟨rfl, rfl, rfl⟩

/-- C8: with no cached identifier and an absent or empty API credential,
the resolver raises the configuration `ValueError` before issuing any
network call. -/
theorem c8_missing_credential (env : ResolverEnv) (apiKey : Option String)
    (hk : strTruthy apiKey = false) :
    get_or_create_campaign apiKey none env
      = ⟨.raised (.valueError "Missing LEMLIST_API_KEY"), none, []⟩ := by
  rw [get_or_create_campaign]
  simp [optTruthy, hk]

/-- C8 witness: the unset-credential case. -/
theorem c8_witness :
    strTruthy none = false
    ∧ get_or_create_campaign none none ⟨.netError, .netError⟩
      = ⟨.raised (.valueError "Missing LEMLIST_API_KEY"), none, []⟩ :=
  ⟨by decide, c8_missing_credential ⟨.netError, .netError⟩ none (by decide)⟩

/-- C9: for the inbound object with `WorkEmail` `a@b.com` and `FirstName`
`Ada`, whenever campaign resolution returns an identifier and the upsert
succeeds, the handler POSTs exactly the payload `firstName: Ada` to
`/campaigns/{resolved id}/leads/a@b.com` and responds 201 with the
documented success body. -/
theorem c9_example_forwarding (apiKey : Option String) (cid : Option JVal)
    (env : HandlerEnv) (i : JVal) (b : Record)
    (hres : (get_or_create_campaign apiKey cid env.resolver).result = .ret (some i))
    (hlead : env.leadResult = .success b) :
    (rb2b_webhook_receiver apiKey cid
        (.obj [("WorkEmail", .jstr "a@b.com"), ("FirstName", .jstr "Ada")]) env).resp
      = .json 201 [("status", "success"), ("message", "Contact created in lemlist")]
    ∧ (rb2b_webhook_receiver apiKey cid
        (.obj [("WorkEmail", .jstr "a@b.com"), ("FirstName", .jstr "Ada")]) env).calls
      = (get_or_create_campaign apiKey cid env.resolver).calls
        ++ [.upsertLead
            ("https://api.lemlist.com/api/campaigns/" ++ JVal.pyStr i ++ "/leads/a@b.com")
            [("firstName", .jstr "Ada")]] := by
  have hmail : resolve_email [("WorkEmail", JVal.jstr "a@b.com"), ("FirstName", JVal.jstr "Ada")]
      = some (.jstr "a@b.com") := by decide
  have hpay : lemlist_payload [("WorkEmail", JVal.jstr "a@b.com"), ("FirstName", JVal.jstr "Ada")]
      = [("firstName", .jstr "Ada")] := by decide
  have hie : ("a@b.com" : String).isEmpty = false := rfl
  have hlit : ("/leads/" ++ "a@b.com" : String) = "/leads/a@b.com" := rfl
  constructor <;>
  · rw [rb2b_webhook_receiver]
    simp [hmail, hpay, hres, hlead, optTruthy, JVal.truthy, leadUrl, pyStrOpt, JVal.pyStr,
      hie, hlit, String.append_assoc]

/-- C9 witness: a cached campaign identifier `cmp1` and a succeeding
upsert produce the 201 response. -/
theorem c9_witness :
    (get_or_create_campaign (some "k") (some (.jstr "cmp1"))
        (HandlerEnv.mk ⟨.netError, .netError⟩ (.success [])).resolver).result
      = .ret (some (.jstr "cmp1"))
    ∧ (HandlerEnv.mk ⟨.netError, .netError⟩ (.success [])).leadResult
      = .success []
    ∧ (rb2b_webhook_receiver (some "k") (some (.jstr "cmp1"))
        (.obj [("WorkEmail", .jstr "a@b.com"), ("FirstName", .jstr "Ada")])
        (HandlerEnv.mk ⟨.netError, .netError⟩ (.success []))).resp
      = .json 201 [("status", "success"), ("message", "Contact created in lemlist")] :=
  ⟨by decide, by decide,
    (c9_example_forwarding (some "k") (some (.jstr "cmp1"))
      (HandlerEnv.mk ⟨.netError, .netError⟩ (.success [])) (.jstr "cmp1") []
      (by decide) (by decide)).1⟩

/-- Spec-side predicate for C10: the response is one of the rows of the
documented response table (spec §6). -/
def documented (resp : HResp) : Prop :=
  resp = .json 400 [("status", "error"), ("message", "Failed to parse JSON")]
  ∨ resp = .json 400 [("status", "error"), ("message", "Invalid request data")]
  ∨ resp = .json 200 [("status", "skipped"), ("message", "Missing required field: email")]
  ∨ resp = .json 201 [("status", "success"), ("message", "Contact created in lemlist")]
  ∨ (∃ t, resp = .json 502 [("status", "error"),
      ("message", "Failed to create contact in lemlist"), ("details", t)])
  ∨ resp = .json 503 [("status", "error"), ("message", "Network error connecting to lemlist")]
  ∨ resp = .json 500 [("status", "error"), ("message", "An internal server error occurred")]

/-- C10: every request gets one of the documented JSON responses EXCEPT
when campaign resolution raises an `HTTPError` during forwarding, in which
case an uncaught `UnboundLocalError` escapes the handler (the same slip as
in C2) — the claim's universal part fails there, while its "in particular"
part holds: a valid-JSON non-object body is answered with a documented 400
(the logging loop inside the first `try` raises and is caught), never an
uncaught exception. -/
theorem c10_responses :
    (∀ (apiKey : Option String) (cid : Option JVal) (body : Body) (env : HandlerEnv),
        documented (rb2b_webhook_receiver apiKey cid body env).resp
        ∨ (rb2b_webhook_receiver apiKey cid body env).resp = .uncaught "UnboundLocalError")
    ∧ (rb2b_webhook_receiver (some "k") none (.obj [("WorkEmail", .jstr "w@x.io")])
        ⟨⟨.success [], .httpError 500 "server error"⟩, .netError⟩).resp
      = .uncaught "UnboundLocalError"
    ∧ ¬ documented (.uncaught "UnboundLocalError") := by
  refine ⟨?_, by decide, ?_⟩
  · intro apiKey cid body env
    cases body with
    | noBody => exact Or.inl (Or.inl rfl)
    | badJson => exact Or.inl (Or.inl rfl)
    | jnull => exact Or.inl (Or.inr (Or.inl rfl))
    | scalar v =>
      rw [rb2b_webhook_receiver]
      split
      · exact Or.inl (Or.inl rfl)
      · exact Or.inl (Or.inr (Or.inl rfl))
    | arr elems =>
      rw [rb2b_webhook_receiver]
      split
      · exact Or.inl (Or.inr (Or.inl rfl))
      · exact Or.inl (Or.inl rfl)
    | obj r =>
      rw [rb2b_webhook_receiver]
      split
      · exact Or.inl (Or.inr (Or.inl rfl))
      · dsimp only
        split
        · exact Or.inl (Or.inr (Or.inr (Or.inl rfl)))
        · split
          · exact Or.inr rfl
          · exact Or.inl (Or.inr (Or.inr (Or.inr (Or.inr (Or.inr (Or.inl rfl))))))
          · exact Or.inl (Or.inr (Or.inr (Or.inr (Or.inr (Or.inr (Or.inr rfl))))))
          · split
            · exact Or.inl (Or.inr (Or.inr (Or.inr (Or.inl rfl))))
            · exact Or.inl (Or.inr (Or.inr (Or.inr (Or.inr (Or.inl ⟨_, rfl⟩)))))
            · exact Or.inl (Or.inr (Or.inr (Or.inr (Or.inr (Or.inr (Or.inl rfl))))))
  · intro hd
    rcases hd with h | h | h | h | ⟨t, h⟩ | h | h <;> exact HResp.noConfusion h

end Superleads
